import Mathlib

/-!
Verification of the HLL RCON tool presentation-layer components.

This file gives a shallow embedding, in Lean 4, of the two source files

* `rcongui_public/src/components/game/statistics/game-table.tsx`
  (the `DataTable` component and the `SubList` grouped collapsible list), and
* `rcongui/src/components/Scoreboard/LiveScore.js`
  (the `LiveScore` polling dashboard and the `LiveHeader` derived strings),

and proves or refutes the behavioral claims made about them.  Pure
computations (option lists, derived strings, sort orders) are translated
directly; the React effect and promise machinery is embedded as explicit
state passing: a poll tick is a list of settle events folded over the
dashboard state, and the interval effect is a function from the current
state and current time to the established timer.
-/

/-! ### Data model of the tabular player view (`game-table.tsx`)

`Player` keeps the fields the embedded logic reads: the display name
`player`, the identifier `player_id` used for row DOM ids, and `kills`,
which drives the default sort.  Other record fields are never inspected by
the embedded code paths. -/

structure Player where
  player_id : String
  player : String
  kills : Nat
  deriving DecidableEq

/-- Option entry of the `SelectBox` player-name filter (`value`/`label`). -/
structure SelectOption where
  value : String
  label : String
  deriving DecidableEq

/-- Embeds `playerFilterOptions` (game-table.tsx lines 59–65): the options of
the player-name multi-select are the names of the current dataset, followed by
the already-selected names that no row of the current dataset carries. -/
def playerFilterOptions (data : List Player) (playerFilter : List String) :
    List SelectOption :=
  (data.map fun p => { value := p.player, label := p.player }) ++
    ((playerFilter.filter fun name =>
        !(data.any fun p => p.player == name)).map
      fun name => { value := name, label := name })

/-- Argument record of the export collaborator `download(rows, filename)`. -/
structure DownloadCall where
  rows : List Player
  filename : String
  deriving DecidableEq

/-- Embeds the export control's click handler (game-table.tsx line 180),
which calls the download collaborator with the raw `data` prop and the file
name stem built from the table id. -/
def exportDownloadCall (data : List Player) (tableId : String) : DownloadCall :=
  { rows := data, filename := "game-table-" ++ tableId }

/-- Kills-descending order on players (default sort `{ id: 'kills', desc: true }`,
game-table.tsx lines 67–72). -/
def killsGe (a b : Player) : Prop := b.kills ≤ a.kills

instance : DecidableRel killsGe := fun a b =>
  inferInstanceAs (Decidable (b.kills ≤ a.kills))

/-- Modelled from the spec: the filtered/sorted row model of the table is
computed by the external `useReactTable` collaborator (`@tanstack/react-table`),
whose code is not part of this repository.  Per spec §4.1, the player-name
facet keeps exactly the rows whose name is among the selected names (no
constraint while the selection is empty), and the default sort is kills
descending. -/
def specFilteredSortedRows (data : List Player) (playerFilter : List String) :
    List Player :=
  List.insertionSort killsGe
    (if playerFilter.isEmpty then data
     else data.filter fun p => playerFilter.contains p.player)

/-! ### Focus-highlight effect (`game-table.tsx` lines 101–115) -/

/-- A DOM row element: its id and its current class list. -/
structure DomElement where
  elemId : String
  classes : List String
  deriving DecidableEq

/-- The highlight class set added to the focused row (game-table.tsx line 108). -/
def highlightStyle : List String :=
  ["bg-accent", "outline-2", "-outline-offset-2", "outline-primary", "outline"]

/-- A pending `setTimeout` callback: after `delayMs`, remove `removeClasses`
from the element `elemId`. -/
structure TimeoutTask where
  delayMs : Nat
  elemId : String
  removeClasses : List String
  deriving DecidableEq

/-- Embeds `classList.add(...cs)` on the element `i`: each class not already
present is appended. -/
def addClasses (dom : List DomElement) (i : String) (cs : List String) :
    List DomElement :=
  dom.map fun e =>
    if e.elemId = i then
      { e with classes := e.classes ++ cs.filter fun c => !(e.classes.contains c) }
    else e

/-- Embeds `classList.remove(...removeClasses)` as run by a fired timeout. -/
def runTimeout (dom : List DomElement) (task : TimeoutTask) : List DomElement :=
  dom.map fun e =>
    if e.elemId = task.elemId then
      { e with classes := e.classes.filter fun c => !(task.removeClasses.contains c) }
    else e

/-- Observable outcome of one run of the focus effect: which row was scrolled
into view, the DOM after the synchronous class additions, the timeouts
scheduled, and the focused-player-id value after the effect. -/
structure FocusEffectResult where
  scrolledIntoView : Option String
  dom : List DomElement
  timeouts : List TimeoutTask
  focusedPlayerId : Option String
  deriving DecidableEq

/-- Embeds the focus effect (game-table.tsx lines 101–115): a `null` focus id
returns early; otherwise the element `"row-" + focusedPlayerId` is looked up,
and when present it is scrolled into view, the highlight classes are added and
their removal is scheduled 2000 ms later; in every non-null case the external
focus value is reset to `null` at the end of the effect body. -/
def focusEffect : Option String → List DomElement → FocusEffectResult
  | none, dom =>
      { scrolledIntoView := none, dom := dom, timeouts := [], focusedPlayerId := none }
  | some pid, dom =>
    match dom.find? fun e => e.elemId == "row-" ++ pid with
    | some _ =>
        { scrolledIntoView := some ("row-" ++ pid)
          dom := addClasses dom ("row-" ++ pid) highlightStyle
          timeouts := [{ delayMs := 2000, elemId := "row-" ++ pid,
                         removeClasses := highlightStyle }]
          focusedPlayerId := none }
    | none =>
        { scrolledIntoView := none, dom := dom, timeouts := [], focusedPlayerId := none }

/-! ### Grouped collapsible list (`SubList`, second source file, lines 269–313) -/

/-- Key order on entries: `sortBy((v, k) => k)` compares keys. -/
def keyLe (a b : String × Nat) : Prop := a.1 ≤ b.1

/-- Value order on entries: `sort()` compares values with the default
comparator. -/
def valLe (a b : String × Nat) : Prop := a.2 ≤ b.2

instance : DecidableRel keyLe := fun a b =>
  inferInstanceAs (Decidable (a.1 ≤ b.1))

instance : DecidableRel valLe := fun a b =>
  inferInstanceAs (Decidable (a.2 ≤ b.2))

instance : IsTotal (String × Nat) keyLe := ⟨fun a b => le_total a.1 b.1⟩

instance : IsTrans (String × Nat) keyLe := ⟨fun _ _ _ h h2 => le_trans h h2⟩

instance : IsTotal (String × Nat) valLe := ⟨fun a b => le_total a.2 b.2⟩

instance : IsTrans (String × Nat) valLe := ⟨fun _ _ _ h h2 => le_trans h h2⟩

/-- Embeds the `SubList` sort (lines 276–279): `sortByKey` sorts the entries
ascending by key (`data.sortBy((v, k) => k)`); otherwise the entries are
sorted ascending by value and the result reversed (`data.sort().reverse()`).
Immutable.js sorts are stable; a stable sort models them. -/
def subListRows (sortByKey : Bool) (entries : List (String × Nat)) :
    List (String × Nat) :=
  if sortByKey then List.insertionSort keyLe entries
  else (List.insertionSort valLe entries).reverse

/-! ### Polling dashboard (`LiveScore.js`)

The nested immutable maps become structures of optional fields: a `get` with
no default is an `Option`-valued access, and a `get(k, d)` is `Option.getD`. -/

/-- Value of the `name` entry of the public-info result, itself a map with a
`name` field (`serverState.get("name", new Map()).get("name", ...)`). -/
structure ServerName where
  name : Option String
  deriving DecidableEq

/-- A map description: `pretty_name` and `image_name` entries. -/
structure MapDesc where
  pretty_name : Option String
  image_name : Option String
  deriving DecidableEq

/-- A map layer of the public info (`current_map` / `next_map` entries): a
nested `map` description and a `start` epoch. -/
structure MapLayer where
  map : Option MapDesc
  start : Option Nat
  deriving DecidableEq

/-- The `vote_status` entry: `winning_maps` is an ordered sequence of
`(map, voteCount)` pairs, `total_votes` a count; each may be absent. -/
structure VoteStatus where
  winning_maps : Option (List (String × Nat))
  total_votes : Option Nat
  deriving DecidableEq

/-- The public-info result (`serverState` after `fromJS(data.result)`), with
every field optional: the initial state is `new Map()`, where every access
misses. -/
structure ServerState where
  name : Option ServerName
  current_map : Option MapLayer
  next_map : Option MapLayer
  vote_status : Option VoteStatus
  player_count : Option Nat
  max_player_count : Option Nat
  deriving DecidableEq

/-- The initial `serverState`, `new Map()` (LiveScore.js line 85): every
access misses. -/
def emptyServerState : ServerState :=
  { name := none, current_map := none, next_map := none, vote_status := none,
    player_count := none, max_player_count := none }

/-- The `result` object of a successful statistics response: a `stats` row
array, a snapshot timestamp and a suggested refresh interval, each possibly
absent from the object. -/
structure StatsResult where
  stats : Option (List Player)
  snapshot_timestamp : Option Nat
  refresh_interval_sec : Option Nat
  deriving DecidableEq

/-- The stored stats snapshot (`fromJS(data.result || new iList())`,
LiveScore.js line 101): either the empty immutable list (when `result` is
absent) or the result map. -/
inductive StatsSnapshot where
  | emptyList : StatsSnapshot
  | result : StatsResult → StatsSnapshot
  deriving DecidableEq

/-- Embeds `stats.get("refresh_interval_sec", 10)` (LiveScore.js line 103): a
string-keyed `get` on the empty list misses, and a missing key falls back to
10. -/
def snapshotRefreshInterval : StatsSnapshot → Nat
  | .emptyList => 10
  | .result r => r.refresh_interval_sec.getD 10

/-- Embeds `stats.get("stats", new iList())` (LiveScore.js line 91). -/
def statsScores : StatsSnapshot → List Player
  | .emptyList => []
  | .result r => r.stats.getD []

/-- Component state of `LiveScore` (LiveScore.js lines 84–88). -/
structure LiveState where
  stats : StatsSnapshot
  serverState : ServerState
  isLoading : Bool
  isPaused : Bool
  refreshIntervalSec : Nat
  deriving DecidableEq

/-- The `useState` initial values (LiveScore.js lines 84–88): empty stats
list, empty server-state map, loading, not paused, 10-second interval. -/
def initialLiveState : LiveState :=
  { stats := .emptyList, serverState := emptyServerState, isLoading := true,
    isPaused := false, refreshIntervalSec := 10 }

/-- Outcome of one fetch chain: `err` when the fetch or `showResponse` threw
(the chain's `catch` ran, no state setter before it did), or `ok` with the
parsed response data. -/
inductive FetchOutcome (α : Type) where
  | err : FetchOutcome α
  | ok : α → FetchOutcome α
  deriving DecidableEq

/-- A settle event of one poll tick: one of the two fetch chains of `getData`
reaches its end (the chains are independent promises, so the two events may
settle in either order).  The statistics payload is `data.result`, possibly
absent; the public-info payload is `fromJS(data.result)`. -/
inductive TickEvent where
  | statsSettled : FetchOutcome (Option StatsResult) → TickEvent
  | publicSettled : FetchOutcome ServerState → TickEvent
  deriving DecidableEq

/-- Embeds the state updates of the two promise chains of `getData`
(LiveScore.js lines 98–111).  The statistics chain on success stores
`fromJS(data.result || [])` and sets the refresh interval from
`get("refresh_interval_sec", 10)`; on error it changes nothing.  The
public-info chain on success stores the server state and then sets
`isLoading` to false; on error the `catch` skips both setters. -/
def applyEvent (s : LiveState) : TickEvent → LiveState
  | .statsSettled .err => s
  | .statsSettled (.ok none) =>
      { s with stats := .emptyList,
               refreshIntervalSec := snapshotRefreshInterval .emptyList }
  | .statsSettled (.ok (some r)) =>
      { s with stats := .result r,
               refreshIntervalSec := snapshotRefreshInterval (.result r) }
  | .publicSettled .err => s
  | .publicSettled (.ok v) => { s with serverState := v, isLoading := false }

/-- Embeds `setIsLoading(true)` at the top of `getData` (LiveScore.js
line 97), run synchronously before either fetch is issued. -/
def tickStart (s : LiveState) : LiveState := { s with isLoading := true }

/-- A whole poll tick: `setIsLoading(true)`, then the settle events of the
two fetch chains applied in the order in which they settled. -/
def runTick (s : LiveState) (evs : List TickEvent) : LiveState :=
  evs.foldl applyEvent (tickStart s)

/-- Whether an event is a successful settling of the public-info chain — the
only event that runs `setIsLoading(false)`. -/
def isPublicOk : TickEvent → Bool
  | .publicSettled (.ok _) => true
  | _ => false

/-- Whether some event of the tick settles the public-info chain
successfully. -/
def hasPublicOk (evs : List TickEvent) : Bool := evs.any isPublicOk

/-- The interval timer resource established by the scheduling effect. -/
structure IntervalTimer where
  establishedAtMs : Nat
  periodMs : Nat
  deriving DecidableEq

/-- When an interval timer next fires. -/
def nextFireAtMs (t : IntervalTimer) : Nat := t.establishedAtMs + t.periodMs

/-- Embeds the scheduling effect (LiveScore.js lines 116–121) under standard
React effect semantics: whenever `isPaused` or `refreshIntervalSec` changes,
the cleanup clears the previous interval and the effect re-runs at the time
`nowMs` of the change, establishing — unless paused — a fresh interval of
`refreshIntervalSec * 1000` milliseconds. -/
def intervalEffect (nowMs : Nat) (s : LiveState) : Option IntervalTimer :=
  if s.isPaused then none
  else some { establishedAtMs := nowMs, periodMs := s.refreshIntervalSec * 1000 }

/-! ### Derived next-map string (`LiveHeader`, LiveScore.js lines 217–229) -/

/-- JavaScript template interpolation of a possibly-undefined string. -/
def jsStr : Option String → String
  | some s => s
  | none => "undefined"

/-- JavaScript template interpolation of a possibly-undefined number. -/
def jsNat : Option Nat → String
  | some n => toString n
  | none => "undefined"

/-- Embeds `serverState.get("vote_status")?.get("winning_maps")?.get(0)`:
the head of the winning-map pairs, when every level is present. -/
def topWinningEntry (s : ServerState) : Option (String × Nat) :=
  (s.vote_status.bind VoteStatus.winning_maps).bind List.head?

/-- Embeds `serverState.get("next_map")?.get("map")?.get("pretty_name")`. -/
def nextMapPretty (s : ServerState) : Option String :=
  (s.next_map.bind MapLayer.map).bind MapDesc.pretty_name

/-- Embeds the `nextMapString` memo (LiveScore.js lines 217–229): destructure
the top winning entry with the `|| ["", 0]` fallback, then compare the top
map name against the decided next map (`undefined` compares unequal to every
string) and choose the tally or the tally-free template. -/
def nextMapString (s : ServerState) : String :=
  let top := (topWinningEntry s).getD ("", 0)
  let totalVotes := s.vote_status.bind VoteStatus.total_votes
  let nextMap := nextMapPretty s
  if nextMap = some top.1 then
    "Nextmap " ++ jsStr nextMap ++ " with " ++ toString top.2 ++ " out of " ++
      jsNat totalVotes ++ " votes"
  else
    "Nextmap: " ++ jsStr nextMap

/-! ### Concrete fixtures used by witnesses and counterexamples -/

/-- A sample player row. -/
def alicePlayer : Player := { player_id := "1", player := "Alice", kills := 5 }

/-- A second sample player row. -/
def bobPlayer : Player := { player_id := "2", player := "Bob", kills := 3 }

/-- A sample public-info payload, distinct from the empty initial map. -/
def publicInfo1 : ServerState :=
  { emptyServerState with player_count := some 42 }

/-! ### Claims about the tabular player view -/

/-- C4: for every current dataset and every set of already-selected player
names, the player-name filter option list carries exactly the union of the
names present in the current dataset and the selected names — in particular a
selected name stays available after swapping in a dataset that lacks it. -/
theorem c4_player_filter_options_union (data : List Player)
    (playerFilter : List String) (name : String) :
    name ∈ (playerFilterOptions data playerFilter).map SelectOption.value ↔
      name ∈ data.map Player.player ∨ name ∈ playerFilter := by
  simp only [playerFilterOptions, List.map_append, List.mem_append, List.map_map,
    List.mem_map, Function.comp, List.mem_filter, Bool.not_eq_true', List.any_eq_false,
    beq_eq_false_iff_ne, ne_eq]
  constructor
  · rintro (⟨p, hp, rfl⟩ | ⟨n, ⟨hn, _⟩, rfl⟩)
    · exact Or.inl ⟨p, hp, rfl⟩
    · exact Or.inr hn
  · rintro (⟨p, hp, rfl⟩ | hsel)
    · exact Or.inl ⟨p, hp, rfl⟩
    · by_cases hpresent : ∃ p ∈ data, p.player = name
      · rcases hpresent with ⟨p, hp, hpn⟩
        exact Or.inl ⟨p, hp, hpn⟩
      · push_neg at hpresent
        exact Or.inr ⟨name, ⟨hsel, fun p hp => by simp [hpresent p hp]⟩, rfl⟩

/-- C8: the grouped collapsible list renders its key/value pairs sorted
ascending by key when `sortByKey` is true, and otherwise sorted by value
ascending then reversed, i.e. value descending; in both modes the rendered
rows are a permutation of the input entries. -/
theorem c8_sublist_sort_modes (entries : List (String × Nat)) :
    ((subListRows true entries).Perm entries ∧
      (subListRows true entries).Sorted keyLe) ∧
    ((subListRows false entries).Perm entries ∧
      (subListRows false entries).Sorted fun a b => valLe b a) := by
  refine ⟨⟨?_, ?_⟩, ⟨?_, ?_⟩⟩
  · simpa [subListRows] using List.perm_insertionSort keyLe entries
  · simpa [subListRows] using List.sorted_insertionSort keyLe entries
  · simpa [subListRows] using
      (List.reverse_perm _).trans (List.perm_insertionSort valLe entries)
  · show ((List.insertionSort valLe entries).reverse).Pairwise fun a b => valLe b a
    rw [List.pairwise_reverse]
    exact List.sorted_insertionSort valLe entries

/-- C7: when the focused player id becomes non-null and the matching row
exists, the effect scrolls that row into view, adds the highlight class set,
schedules its removal exactly 2000 ms later, and resets the external focus
value back to null, so that a later same-id focus request re-triggers. -/
theorem c7_focus_one_shot (pid : String) (dom : List DomElement)
    (e : DomElement)
    (h : (dom.find? fun x => x.elemId == "row-" ++ pid) = some e) :
    focusEffect (some pid) dom =
      { scrolledIntoView := some ("row-" ++ pid)
        dom := addClasses dom ("row-" ++ pid) highlightStyle
        timeouts := [{ delayMs := 2000, elemId := "row-" ++ pid,
                       removeClasses := highlightStyle }]
        focusedPlayerId := none } := by
  simp only [focusEffect]
  rw [h]

/-- C7 witness: a one-row DOM containing the focused row. -/
theorem c7_focus_one_shot_witness :
    focusEffect (some "p1") [{ elemId := "row-p1", classes := [] }] =
      { scrolledIntoView := some ("row-" ++ "p1")
        dom := addClasses [{ elemId := "row-p1", classes := [] }] ("row-" ++ "p1")
          highlightStyle
        timeouts := [{ delayMs := 2000, elemId := "row-" ++ "p1",
                       removeClasses := highlightStyle }]
        focusedPlayerId := none } :=
  c7_focus_one_shot "p1" [{ elemId := "row-p1", classes := [] }]
    { elemId := "row-p1", classes := [] } rfl

/-- C9: when no DOM row with id `"row-" + player_id` exists, the effect skips
the scroll and highlight but still resets the external focused-player-id to
null, so focus can never remain stuck on a missing player. -/
theorem c9_focus_clears_without_row (pid : String) (dom : List DomElement)
    (h : (dom.find? fun x => x.elemId == "row-" ++ pid) = none) :
    focusEffect (some pid) dom =
      { scrolledIntoView := none, dom := dom, timeouts := [],
        focusedPlayerId := none } := by
  simp only [focusEffect]
  rw [h]

/-- C9 witness: an empty DOM lacks every row. -/
theorem c9_focus_clears_without_row_witness :
    focusEffect (some "p1") [] =
      { scrolledIntoView := none, dom := [], timeouts := [],
        focusedPlayerId := none } :=
  c9_focus_clears_without_row "p1" [] rfl

/-- C1 (amended): activating the export control downloads the raw input data
array passed to the table, under the file name `game-table-<tableId>`,
regardless of the active filters and sorting — whenever the filtered/sorted
dataset differs from the input, the exported rows differ from it. -/
theorem c1_export_uses_raw_input (data : List Player) (tableId : String)
    (playerFilter : List String)
    (hne : specFilteredSortedRows data playerFilter ≠ data) :
    (exportDownloadCall data tableId).rows = data ∧
    (exportDownloadCall data tableId).filename = "game-table-" ++ tableId ∧
    (exportDownloadCall data tableId).rows ≠
      specFilteredSortedRows data playerFilter := by
  refine ⟨rfl, rfl, ?_⟩
  show data ≠ specFilteredSortedRows data playerFilter
  exact fun hc => hne hc.symm

/-- C1 witness: two players, one selected in the name filter. -/
theorem c1_export_uses_raw_input_witness :
    (exportDownloadCall [alicePlayer, bobPlayer] "live-game").rows =
        [alicePlayer, bobPlayer] ∧
      (exportDownloadCall [alicePlayer, bobPlayer] "live-game").filename =
        "game-table-" ++ "live-game" ∧
      (exportDownloadCall [alicePlayer, bobPlayer] "live-game").rows ≠
        specFilteredSortedRows [alicePlayer, bobPlayer] ["Alice"] :=
  c1_export_uses_raw_input [alicePlayer, bobPlayer] "live-game" ["Alice"]
    (by decide)

/-- C1 counterexample: with rows Alice and Bob and the name filter selecting
only Alice, the filtered/sorted dataset is the single row Alice, yet the
export control passes both rows — the raw unfiltered input — to the download
collaborator, so the claim that export downloads the filtered/sorted dataset
fails here. -/
theorem c1_counterexample :
    specFilteredSortedRows [alicePlayer, bobPlayer] ["Alice"] = [alicePlayer] ∧
    (exportDownloadCall [alicePlayer, bobPlayer] "live-game").rows =
      [alicePlayer, bobPlayer] ∧
    (exportDownloadCall [alicePlayer, bobPlayer] "live-game").rows ≠
      specFilteredSortedRows [alicePlayer, bobPlayer] ["Alice"] :=
  ⟨by decide, rfl, by decide⟩

/-! ### Claims about the polling dashboard -/

/-- Helper: folding the settle events of a tick over any state leaves
`isLoading` untouched unless a successful public-info settling occurs, which
sets it to false. -/
theorem foldl_applyEvent_isLoading (evs : List TickEvent) (s : LiveState) :
    (evs.foldl applyEvent s).isLoading =
      if hasPublicOk evs then false else s.isLoading := by
  induction evs generalizing s with
  | nil => simp [hasPublicOk]
  | cons e evs ih =>
    rw [List.foldl_cons, ih]
    cases e with
    | statsSettled o =>
      cases o with
      | err => simp [hasPublicOk, isPublicOk, applyEvent]
      | ok d => cases d <;> simp [hasPublicOk, isPublicOk, applyEvent]
    | publicSettled o =>
      cases o with
      | err => simp [hasPublicOk, isPublicOk, applyEvent]
      | ok v => simp [hasPublicOk, isPublicOk, applyEvent]

/-- C2 (amended): every poll tick sets `isLoading` to true before the fetches
are issued, and during the tick `isLoading` becomes false exactly when the
public-info fetch chain settles successfully — independently of whether the
statistics fetch has settled; a tick whose public-info fetch fails ends with
`isLoading` still true. -/
theorem c2_isLoading_follows_public_fetch (s : LiveState)
    (evs : List TickEvent) :
    (tickStart s).isLoading = true ∧
    (runTick s evs).isLoading = !(hasPublicOk evs) := by
  refine ⟨rfl, ?_⟩
  rw [runTick, foldl_applyEvent_isLoading]
  cases h : hasPublicOk evs <;> simp [tickStart]

/-- C2 counterexample: in the tick trace where only the public-info fetch has
settled (successfully) and the statistics fetch is still outstanding — its
settle event has not yet been applied, so the stats snapshot still has its
pre-tick value — `isLoading` is already false, refuting the claim that it
never becomes false while either fetch is outstanding. -/
theorem c2_counterexample :
    (runTick initialLiveState [.publicSettled (.ok publicInfo1)]).isLoading
        = false ∧
      (runTick initialLiveState [.publicSettled (.ok publicInfo1)]).stats =
        initialLiveState.stats :=
  ⟨rfl, rfl⟩

/-- C3 (amended): the two fetch chains of a tick fail independently: a failed
statistics fetch leaves the stats snapshot and the refresh interval
unchanged, and a failed public-info fetch leaves the server-state snapshot
unchanged but leaves `isLoading` true rather than resetting it to false (the
other, successful chain still applies its updates). -/
theorem c3_failed_fetch_effects (s : LiveState)
    (so : FetchOutcome (Option StatsResult)) (po : FetchOutcome ServerState)
    (evs : List TickEvent)
    (h : evs = [.statsSettled so, .publicSettled po] ∨
         evs = [.publicSettled po, .statsSettled so]) :
    (so = .err → (runTick s evs).stats = s.stats ∧
        (runTick s evs).refreshIntervalSec = s.refreshIntervalSec) ∧
    (po = .err → (runTick s evs).serverState = s.serverState ∧
        (runTick s evs).isLoading = true) := by
  rcases h with h | h <;> subst h <;> constructor
  · rintro rfl
    cases po with
    | err => simp [runTick, applyEvent, tickStart]
    | ok v => simp [runTick, applyEvent, tickStart]
  · rintro rfl
    cases so with
    | err => simp [runTick, applyEvent, tickStart]
    | ok d =>
      cases d with
      | none => simp [runTick, applyEvent, tickStart]
      | some r => simp [runTick, applyEvent, tickStart]
  · rintro rfl
    cases po with
    | err => simp [runTick, applyEvent, tickStart]
    | ok v => simp [runTick, applyEvent, tickStart]
  · rintro rfl
    cases so with
    | err => simp [runTick, applyEvent, tickStart]
    | ok d =>
      cases d with
      | none => simp [runTick, applyEvent, tickStart]
      | some r => simp [runTick, applyEvent, tickStart]

/-- C3 witness: a tick in which both fetches fail, from the initial state. -/
theorem c3_failed_fetch_effects_witness :
    (runTick initialLiveState
        [.statsSettled .err, .publicSettled .err]).serverState =
      initialLiveState.serverState ∧
    (runTick initialLiveState
        [.statsSettled .err, .publicSettled .err]).isLoading = true :=
  (c3_failed_fetch_effects initialLiveState .err .err
      [.statsSettled .err, .publicSettled .err] (Or.inl rfl)).2 rfl

/-- C3 counterexample: a tick in which both fetches fail ends with
`isLoading = true`, not the claimed reset to false; and a tick in which only
the statistics fetch fails does not leave the server-state snapshot
unchanged — the successful public-info fetch replaces it. -/
theorem c3_counterexample :
    (runTick initialLiveState
        [.statsSettled .err, .publicSettled .err]).isLoading = true ∧
    (runTick initialLiveState
        [.statsSettled .err, .publicSettled (.ok publicInfo1)]).serverState ≠
      initialLiveState.serverState :=
  ⟨rfl, by decide⟩

/-- A statistics result carrying a server-suggested 30-second interval. -/
def statsResult30 : StatsResult :=
  { stats := some [], snapshot_timestamp := some 1700000000,
    refresh_interval_sec := some 30 }

/-- A statistics result that omits the `refresh_interval_sec` field. -/
def statsResultNoInterval : StatsResult :=
  { stats := some [alicePlayer], snapshot_timestamp := some 1700000000,
    refresh_interval_sec := none }

/-- C6: when a successful statistics fetch carries a server-suggested refresh
interval `v`, the scheduling effect re-established at the time of that
response fires `v` seconds later, using `v` in place of the previous
interval; when `v` differs from the previous interval, the two schedules
differ. -/
theorem c6_interval_uses_server_value (s : LiveState) (r : StatsResult)
    (tMs v : Nat) (hp : s.isPaused = false)
    (hr : r.refresh_interval_sec = some v) :
    (intervalEffect tMs (applyEvent s (.statsSettled (.ok (some r))))).map
        nextFireAtMs = some (tMs + v * 1000) ∧
    (v ≠ s.refreshIntervalSec →
      tMs + v * 1000 ≠ tMs + s.refreshIntervalSec * 1000) := by
  constructor
  · simp [intervalEffect, applyEvent, snapshotRefreshInterval, hp, hr,
      nextFireAtMs]
  · intro hv hc
    exact hv (Nat.eq_of_mul_eq_mul_right (by norm_num)
      (Nat.add_left_cancel hc))

/-- C6 witness: initial interval 10 seconds, response carrying 30 at time
5000 ms — the next tick is scheduled at 5000 + 30000 ms, not 5000 + 10000. -/
theorem c6_interval_uses_server_value_witness :
    (intervalEffect 5000 (applyEvent initialLiveState
        (.statsSettled (.ok (some statsResult30))))).map nextFireAtMs =
      some (5000 + 30 * 1000) ∧
    (30 ≠ initialLiveState.refreshIntervalSec →
      5000 + 30 * 1000 ≠ 5000 + initialLiveState.refreshIntervalSec * 1000) :=
  c6_interval_uses_server_value initialLiveState statsResult30 5000 30 rfl rfl

/-- C10: a successful statistics response without the `refresh_interval_sec`
field resets the refresh interval to the default 10 — even when a previous
response had supplied a different value — and a response without the `result`
field stores the empty list as the stats snapshot (whose score rows are
empty) and likewise resets the interval to 10. -/
theorem c10_missing_interval_defaults (s : LiveState) (r : StatsResult)
    (hr : r.refresh_interval_sec = none) :
    (applyEvent s (.statsSettled (.ok (some r)))).refreshIntervalSec = 10 ∧
    (applyEvent s (.statsSettled (.ok none))).refreshIntervalSec = 10 ∧
    (applyEvent s (.statsSettled (.ok none))).stats = .emptyList ∧
    statsScores (applyEvent s (.statsSettled (.ok none))).stats = [] := by
  refine ⟨?_, rfl, rfl, rfl⟩
  simp [applyEvent, snapshotRefreshInterval, hr]

/-- C10 witness: the previously stored interval 30 is replaced by the default
10 when the response omits the field. -/
theorem c10_missing_interval_defaults_witness :
    (applyEvent { initialLiveState with refreshIntervalSec := 30 }
        (.statsSettled (.ok (some statsResultNoInterval)))).refreshIntervalSec
      = 10 :=
  (c10_missing_interval_defaults
    { initialLiveState with refreshIntervalSec := 30 }
    statsResultNoInterval rfl).1

/-- Vote status with top map St. Mere Eglise at 5 of 8 total votes. -/
def voteStatusSME : VoteStatus :=
  { winning_maps := some [("St. Mere Eglise", 5)], total_votes := some 8 }

/-- Next-map layer whose pretty name is St. Mere Eglise. -/
def nextLayerSME : MapLayer :=
  { map := some { pretty_name := some "St. Mere Eglise", image_name := none },
    start := none }

/-- Next-map layer whose pretty name is Carentan. -/
def nextLayerCarentan : MapLayer :=
  { map := some { pretty_name := some "Carentan", image_name := none },
    start := none }

/-- Server state where the top-voted map equals the decided next map. -/
def stateTopEqualsNext : ServerState :=
  { emptyServerState with vote_status := some voteStatusSME,
                          next_map := some nextLayerSME }

/-- Server state where the top-voted map differs from the decided next map. -/
def stateTopDiffersNext : ServerState :=
  { emptyServerState with vote_status := some voteStatusSME,
                          next_map := some nextLayerCarentan }

/-- Server state with the vote data entirely absent. -/
def stateNoVoteData : ServerState :=
  { emptyServerState with next_map := some nextLayerCarentan }

/-- C5: the derived next-map message uses the tally template when the
top-voted map equals the decided next map and the tally-free template when it
differs; on the literal inputs of the claim it produces
"Nextmap St. Mere Eglise with 5 out of 8 votes" and "Nextmap: Carentan", and
with vote data entirely absent the computation still yields a defined string
via the empty-tally fallback. -/
theorem c5_next_map_message :
    (∀ s top nm, topWinningEntry s = some top → nextMapPretty s = some nm →
        top.1 = nm →
        nextMapString s = "Nextmap " ++ nm ++ " with " ++ toString top.2 ++
          " out of " ++ jsNat (s.vote_status.bind VoteStatus.total_votes) ++
          " votes") ∧
    (∀ s nm, nextMapPretty s = some nm →
        ((topWinningEntry s).getD ("", 0)).1 ≠ nm →
        nextMapString s = "Nextmap: " ++ nm) ∧
    nextMapString stateTopEqualsNext =
      "Nextmap St. Mere Eglise with 5 out of 8 votes" ∧
    nextMapString stateTopDiffersNext = "Nextmap: Carentan" ∧
    nextMapString stateNoVoteData = "Nextmap: Carentan" := by
  refine ⟨?_, ?_, by decide, by decide, by decide⟩
  · intro s top nm h1 h2 h3
    simp [nextMapString, h1, h2, ← h3, jsStr]
  · intro s nm h1 h2
    unfold nextMapString
    rw [h1, if_neg (by simpa using fun hc => h2 hc.symm)]
    simp [jsStr]

/-- C5 witness: the tally branch applied at the literal state of the claim. -/
theorem c5_next_map_message_witness :
    nextMapString stateTopEqualsNext =
      "Nextmap " ++ "St. Mere Eglise" ++ " with " ++ toString 5 ++
        " out of " ++
        jsNat (stateTopEqualsNext.vote_status.bind VoteStatus.total_votes) ++
        " votes" :=
  c5_next_map_message.1 stateTopEqualsNext ("St. Mere Eglise", 5)
    "St. Mere Eglise" rfl rfl rfl
